import Mathlib

/-!
Verification development for the Hytale server manager's instance lifecycle
and update orchestration engine (`src/backend`).  Python functions from
`services/updater.py`, `services/server.py`, `services/ports.py` and
`api/server.py` / `api/updater.py` are shallowly embedded as executable Lean
definitions; effects (file system, subprocesses, network) are made explicit
as state records and environment oracles.
-/

namespace HSM

/-! ## Version comparison (`services/updater.py`, `version_greater`,
`get_all_instances_update_status`) -/

/-- Embeds `version_greater(a, b)` from `services/updater.py` lines 71-76:
`if not a: return False; if not b or b == "unknown": return True; return a > b`
(Python string `>` is lexicographic comparison, i.e. `b < a`). -/
def version_greater (a b : String) : Bool :=
  if a = "" then false
  else if b = "" ∨ b = "unknown" then true
  else decide (b < a)

/-- Embeds the per-instance `update_available` computation in
`get_all_instances_update_status` (`services/updater.py` lines 130-135):
`iv = inst.get("version") or "unknown"` (Python `or` maps both `None` and the
empty string to `"unknown"`), and `update_available = version_greater(rr, iv)
if rr else False` (Python truthiness: `None` and `""` both fall to `False`). -/
def updateAvailableFor (remote : Option String) (installedRaw : Option String) : Bool :=
  let iv : String :=
    match installedRaw with
    | none => "unknown"
    | some s => if s = "" then "unknown" else s
  match remote with
  | none => false
  | some r => if r = "" then false else version_greater r iv

end HSM

namespace HSM

/-- C10: update availability is plain lexicographic string comparison: with
remote version `a` and installed version `b`, an update is reported available
iff `a` is non-empty and either `b` is empty, or `b = "unknown"`, or `a > b`
as strings; an installed version of `"unknown"` yields "available" for every
non-empty remote version, and an unavailable remote version never yields an
update. -/
theorem C10_version_compare (a b : String) :
    (updateAvailableFor (some a) (some b) = true ↔
      a ≠ "" ∧ (b = "" ∨ b = "unknown" ∨ b < a))
    ∧ (b = "unknown" → a ≠ "" → updateAvailableFor (some a) (some b) = true)
    ∧ updateAvailableFor none (some b) = false := by
  refine ⟨?_, ?_, rfl⟩
  · unfold updateAvailableFor version_greater
    by_cases hb : b = "" <;> by_cases ha : a = "" <;>
      by_cases hbu : b = "unknown" <;> simp [hb, ha, hbu]
  · intro hbu ha
    unfold updateAvailableFor version_greater
    simp [hbu, ha]

/-- Witness for `C10_version_compare` at concrete versions: installed
`"unknown"` with remote `"2026.01.01"` reports an update. -/
theorem C10_version_compare_witness :
    updateAvailableFor (some "2026.01.01") (some "unknown") = true :=
  (C10_version_compare "2026.01.01" "unknown").2.1 rfl (by decide)

end HSM

namespace HSM

/-! ## Download cache (`services/updater.py`, `_get_cached_zip` lines 165-178,
`_ensure_cached_server` lines 181-222)

The per-patchline cache directory holds two files, `server.zip` and
`version.txt`.  `CacheState` records their contents (`none` = file absent).
Network effects are an explicit oracle: `q1`/`q2` model the two
`dl.print_version(patchline)` calls (`none` stands for `rc != 0` or empty
output), `dlRc` the downloader's exit code, and `dlEffect` the content the
external downloader process leaves at its `-download-path` destination —
`download_server` is handed the live cache path `zip_path` as destination, so
the downloader writes there whether or not it ultimately succeeds. -/

structure CacheState where
  zipContent : Option String
  verContent : Option String
deriving DecidableEq, Repr

structure EnsureEnv where
  q1 : Option String
  dlRc : Int
  dlEffect : Option String
  q2 : Option String
deriving Repr

inductive EnsureOutcome
  | cachedHit
  | downloaded
  | failed
deriving DecidableEq, Repr

/-- Embeds `_get_cached_zip`: requires both cache files present, a successful
non-empty remote version query, and the cached marker equal to the remote
version; `some ()` stands for returning the (fixed) zip path, `none` for
Python `None`. -/
def getCachedZip (st : CacheState) (remoteQ : Option String) : Option Unit :=
  if st.zipContent.isNone ∨ st.verContent.isNone then none
  else
    match remoteQ with
    | none => none
    | some remote => if st.verContent = some remote then some () else none

/-- Embeds `_ensure_cached_server`: on a cache hit return the cached path with
no download; otherwise run the downloader with the cache's `server.zip` path
as destination, raise (`failed`) on a non-zero downloader exit, else query the
version again (falling back to `"unknown"` on query failure) and write it to
`version.txt`.  The third component counts downloader invocations. -/
def ensureCachedServer (st : CacheState) (env : EnsureEnv) :
    EnsureOutcome × CacheState × Nat :=
  match getCachedZip st env.q1 with
  | some _ => (EnsureOutcome.cachedHit, st, 0)
  | none =>
    let st1 : CacheState := ⟨env.dlEffect, st.verContent⟩
    if env.dlRc ≠ 0 then (EnsureOutcome.failed, st1, 1)
    else
      let newVer : String := (env.q2).getD "unknown"
      (EnsureOutcome.downloaded, ⟨st1.zipContent, some newVer⟩, 1)

/-- A well-behaved environment for remote version `v`: both version queries
succeed and return `v`, and the download succeeds leaving content `zipc`. -/
def steadyEnv (v zipc : String) : EnsureEnv := ⟨some v, 0, some zipc, some v⟩

/-- `n` successive `_ensure_cached_server` calls under a steady remote
version, threading the cache state; returns the final state and the total
number of downloader invocations. -/
def ensureIter (v zipc : String) : Nat → CacheState → CacheState × Nat
  | 0, st => (st, 0)
  | n + 1, st =>
    let r := ensureCachedServer st (steadyEnv v zipc)
    let rest := ensureIter v zipc n r.2.1
    (rest.1, r.2.2 + rest.2)

lemma ensureCachedServer_steady_hits (st : CacheState) (v zipc : String) :
    getCachedZip (ensureCachedServer st (steadyEnv v zipc)).2.1 (some v) = some () := by
  have hq : (steadyEnv v zipc).q1 = some v := rfl
  cases h : getCachedZip st (some v) with
  | some u =>
    have hcall : ensureCachedServer st (steadyEnv v zipc)
        = (EnsureOutcome.cachedHit, st, 0) := by
      unfold ensureCachedServer
      rw [hq, h]
    rw [hcall]
    cases u
    exact h
  | none =>
    have hcall : ensureCachedServer st (steadyEnv v zipc)
        = (EnsureOutcome.downloaded, ⟨some zipc, some v⟩, 1) := by
      unfold ensureCachedServer
      rw [hq, h]
      simp [steadyEnv]
    rw [hcall]
    simp [getCachedZip]

lemma ensureIter_of_hit (v zipc : String) (n : Nat) (st : CacheState)
    (h : getCachedZip st (some v) = some ()) :
    ensureIter v zipc n st = (st, 0) := by
  induction n with
  | zero => rfl
  | succ n ih =>
    have hcall : ensureCachedServer st (steadyEnv v zipc)
        = (EnsureOutcome.cachedHit, st, 0) := by
      unfold ensureCachedServer
      simp [steadyEnv, h]
    simp [ensureIter, hcall, ih]

/-- Under a steady remote version, every call after the first is a cache hit. -/
lemma ensureIter_downloads_le_one (v zipc : String) (n : Nat) (st : CacheState) :
    (ensureIter v zipc n st).2 ≤ 1 := by
  cases n with
  | zero => simp [ensureIter]
  | succ n =>
    have hhit := ensureCachedServer_steady_hits st v zipc
    have hrest := ensureIter_of_hit v zipc n
      (ensureCachedServer st (steadyEnv v zipc)).2.1 hhit
    have hb : (ensureCachedServer st (steadyEnv v zipc)).2.2 ≤ 1 := by
      unfold ensureCachedServer
      cases h : getCachedZip st (steadyEnv v zipc).q1 <;> simp [h, steadyEnv]
    simp only [ensureIter, hrest]
    simpa using hb

/-- C7: if a cache entry exists whose recorded version equals the current
remote latest version (`getCachedZip` returns the path), `_ensure_cached_server`
returns it unchanged with no downloader invocation; and any sequence of
repeated calls while the remote version stays unchanged performs at most one
download in total. -/
theorem C7_cache_hit_idempotence (st : CacheState) (v zipc : String) (n : Nat) :
    (getCachedZip st (some v) = some () →
      ensureCachedServer st (steadyEnv v zipc) = (EnsureOutcome.cachedHit, st, 0))
    ∧ (ensureIter v zipc n st).2 ≤ 1 := by
  constructor
  · intro h
    unfold ensureCachedServer
    have hq : (steadyEnv v zipc).q1 = some v := rfl
    rw [hq, h]
  · exact ensureIter_downloads_le_one v zipc n st

/-- Witness for `C7_cache_hit_idempotence`: a cache recorded at version
`"1.0"` with the remote also at `"1.0"` is returned unchanged with zero
downloads, and five repeated calls from that state download at most once. -/
theorem C7_cache_hit_idempotence_witness :
    ensureCachedServer ⟨some "zip-a", some "1.0"⟩ (steadyEnv "1.0" "zip-a")
        = (EnsureOutcome.cachedHit, ⟨some "zip-a", some "1.0"⟩, 0)
    ∧ (ensureIter "1.0" "zip-a" 5 ⟨some "zip-a", some "1.0"⟩).2 ≤ 1 :=
  ⟨(C7_cache_hit_idempotence ⟨some "zip-a", some "1.0"⟩ "1.0" "zip-a" 5).1 (by decide),
   (C7_cache_hit_idempotence ⟨some "zip-a", some "1.0"⟩ "1.0" "zip-a" 5).2⟩

/-- C3 counterexample: a previously valid cache (artifact `"artifact-v1"`,
marker `"v1"` equal to the actual remote latest) goes through a transient
failure: the version query times out (`q1 = none`, so `_get_cached_zip`
returns `None` and the cache is bypassed), and the download — whose
destination is the live cache file `server.zip` — exits non-zero after
leaving partial content there.  The operation fails as claimed, but the
cached artifact does not "remain exactly as it was": its content changed. -/
theorem C3_cache_touched_counterexample :
    (ensureCachedServer ⟨some "artifact-v1", some "v1"⟩
        ⟨none, 1, some "truncated-bytes", none⟩).1 = EnsureOutcome.failed
    ∧ (ensureCachedServer ⟨some "artifact-v1", some "v1"⟩
        ⟨none, 1, some "truncated-bytes", none⟩).2.1.zipContent
      ≠ (some "artifact-v1" : Option String) := by
  constructor
  · rfl
  · intro h
    simp only [ensureCachedServer, getCachedZip] at h
    exact absurd (Option.some.inj h) (by decide)

/-- C3 amended: when the cache is bypassed (version query failed or marker
stale) and the download step fails, `_ensure_cached_server` raises
(`failed`) and the version marker `version.txt` is left exactly as it was —
it is rewritten only after a successful download — but the artifact
`server.zip` holds whatever the failed downloader run left at its
destination, since the live cache path is passed as the download target. -/
theorem C3_download_failure_marker_untouched (st : CacheState) (env : EnsureEnv)
    (hmiss : getCachedZip st env.q1 = none) (hfail : env.dlRc ≠ 0) :
    ensureCachedServer st env
      = (EnsureOutcome.failed, ⟨env.dlEffect, st.verContent⟩, 1) := by
  unfold ensureCachedServer
  rw [hmiss]
  simp [hfail]

/-- Witness for `C3_download_failure_marker_untouched` at the concrete
transient-failure input: the marker stays `"v1"`. -/
theorem C3_download_failure_marker_untouched_witness :
    ensureCachedServer ⟨some "artifact-v1", some "v1"⟩
        ⟨none, 1, some "truncated-bytes", none⟩
      = (EnsureOutcome.failed, ⟨some "truncated-bytes", some "v1"⟩, 1) :=
  C3_download_failure_marker_untouched ⟨some "artifact-v1", some "v1"⟩
    ⟨none, 1, some "truncated-bytes", none⟩ (by decide) (by decide)

end HSM

namespace HSM

/-! ## Port allocator (`services/ports.py`)

`stored` models the settings store's `instance_ports` dict (instance name to
`(game, webserver)`), `runningPorts` models
`server_svc.get_all_running_ports()`. -/

def GAME_PORT_BASE : Nat := 5520
def GAME_PORT_MAX : Nat := 5600
def NITRADO_OFFSET : Nat := 100

structure PortsState where
  stored : List (String × Nat × Nat)
  runningPorts : List (String × Nat)
deriving DecidableEq, Repr

/-- Embeds `settings.get_instance_port(name)` on the `stored` map. -/
def lookupStored (st : PortsState) (name : String) : Option (Nat × Nat) :=
  (st.stored.find? fun q => q.1 = name).map (·.2)

/-- Embeds `settings.set_instance_port` (dict overwrite of one key). -/
def setStored (st : PortsState) (name : String) (g w : Nat) : PortsState :=
  ⟨(name, g, w) :: st.stored.filter (fun q => ¬ q.1 = name), st.runningPorts⟩

/-- Embeds `_get_used_game_ports(exclude_instance)` (`ports.py` lines 18-36):
game ports stored for other instances plus ports of running servers other
than the excluded one. -/
def getUsedGamePorts (st : PortsState) (exclude : String) : List Nat :=
  (st.stored.filter (fun q => ¬ q.1 = exclude)).map (fun q => q.2.1)
    ++ (st.runningPorts.filter (fun q => ¬ q.1 = exclude)).map (fun q => q.2)

/-- The ascending scan `for p in range(GAME_PORT_BASE, GAME_PORT_MAX + 1)`
looking for the first port not in `used`. -/
def findFreePort (used : List Nat) : Option Nat :=
  ((List.range (GAME_PORT_MAX + 1 - GAME_PORT_BASE)).map (· + GAME_PORT_BASE)).find?
    (fun p => ¬ used.contains p)

/-- Embeds `assign_port_for_instance` (`ports.py` lines 39-64): keep a stored
non-conflicting pair; otherwise scan for the first free port (persisting it);
on exhaustion fall back to `GAME_PORT_BASE` (persisting it). -/
def assign_port_for_instance (st : PortsState) (name : String) :
    (Nat × Nat) × PortsState :=
  let scan : (Nat × Nat) × PortsState :=
    let used := getUsedGamePorts st name
    match findFreePort used with
    | some p => ((p, p + NITRADO_OFFSET), setStored st name p (p + NITRADO_OFFSET))
    | none =>
      ((GAME_PORT_BASE, GAME_PORT_BASE + NITRADO_OFFSET),
        setStored st name GAME_PORT_BASE (GAME_PORT_BASE + NITRADO_OFFSET))
  match lookupStored st name with
  | some (g, w) =>
    if ¬ (getUsedGamePorts st name).contains g then ((g, w), st) else scan
  | none => scan

/-- The exhausted state: 81 instances `"i0" .. "i80"` storing every port of
the range 5520-5600, none running. -/
def exhaustedPorts : PortsState :=
  ⟨(List.range 81).map (fun i => (String.append "i" (toString i), 5520 + i, 5620 + i)), []⟩

end HSM

namespace HSM

/-- C8 counterexample: after the port range 5520-5600 is exhausted (81
instances each storing a distinct port of the range), assigning a port to a
fresh instance `"fresh"` falls back to 5520 — a port already stored for
instance `"i0"` — so two distinct instances hold the same primary port, and
the allocator has assigned a primary port already stored for another
instance. -/
theorem C8_exhaustion_counterexample :
    (assign_port_for_instance exhaustedPorts "fresh").1.1 = 5520
    ∧ (getUsedGamePorts exhaustedPorts "fresh").contains 5520 = true
    ∧ lookupStored (assign_port_for_instance exhaustedPorts "fresh").2 "fresh"
        = some (5520, 5620)
    ∧ lookupStored (assign_port_for_instance exhaustedPorts "fresh").2 "i0"
        = some (5520, 5620) := by decide

/-- C8 amended: as long as the range 5520-5600 is not exhausted (some port in
it is unclaimed), `assign_port_for_instance` never hands out a primary port
that is stored for or bound by another instance; only the documented
exhaustion fallback (reuse of 5520) can duplicate a port. -/
theorem C8_no_collision_when_not_exhausted (st : PortsState) (name : String)
    (p : Nat) (hfree : findFreePort (getUsedGamePorts st name) = some p) :
    ¬ ((assign_port_for_instance st name).1.1 ∈ getUsedGamePorts st name) := by
  intro hmem
  have hfree2 := hfree
  unfold findFreePort at hfree2
  have hfind := List.find?_some hfree2
  have hpfree : ¬ ((getUsedGamePorts st name).contains p = true) :=
    of_decide_eq_true hfind
  have hpnotmem : p ∉ getUsedGamePorts st name :=
    fun hm => hpfree (List.elem_iff.mpr hm)
  unfold assign_port_for_instance at hmem
  cases hlook : lookupStored st name with
  | none =>
    simp only [hlook, hfree] at hmem
    exact hpnotmem hmem
  | some gw =>
    obtain ⟨g, w⟩ := gw
    simp only [hlook] at hmem
    by_cases hg : (getUsedGamePorts st name).contains g = true
    · rw [if_neg (not_not_intro hg)] at hmem
      simp only [hfree] at hmem
      exact hpnotmem hmem
    · rw [if_pos hg] at hmem
      exact hg (List.elem_iff.mpr hmem)

/-- Witness for `C8_no_collision_when_not_exhausted`: with `"Beta"` storing
5521, allocation does not collide (and indeed yields 5520 for a fresh
`"Alpha"`, the spec's scenario). -/
theorem C8_no_collision_witness :
    ((findFreePort (getUsedGamePorts ⟨[("Beta", 5521, 5621)], []⟩ "Alpha") = some 5520)
      ∧ (assign_port_for_instance ⟨[("Beta", 5521, 5621)], []⟩ "Alpha").1.1 = 5520)
    ∧ ¬ ((assign_port_for_instance ⟨[("Beta", 5521, 5621)], []⟩ "Alpha").1.1
          ∈ getUsedGamePorts ⟨[("Beta", 5521, 5621)], []⟩ "Alpha") :=
  ⟨⟨by decide, by decide⟩,
   C8_no_collision_when_not_exhausted ⟨[("Beta", 5521, 5621)], []⟩ "Alpha" 5520 (by decide)⟩

end HSM

namespace HSM

/-! ## `perform_update` (`services/updater.py` lines 318-396)

The worker's control skeleton is embedded as a pure function over the target
instance's tracked files and an environment oracle.  `InstFS` carries the
files `perform_update` can touch: `serverDirExists` (`os.path.isdir(server_dir)`),
`payload` (the replaced set: `Server/HytaleServer.jar`, `Server/HytaleServer.aot`,
`Server/Licenses`, `Assets.zip`, `start.bat`, `start.sh`), `userData`
(everything else in the instance directory, which the update never lists),
and `marker` (the `version`/`patchline` text files).

Oracle fields: `stopWorks` — whether the running target exits within the
30-second wait (or the graceful coordinator succeeds); `ensureOk` — whether
`_ensure_cached_server` returns rather than raises; `verQ` — the
`dl.print_version` result (`none` = failure, mapped to `"unknown"`);
`zipPayload` — the payload content of the cached zip; `backupOk` — whether
`bk.create_backup` returns rather than raises; `extract` — the outcome of
`_extract_server_zip_to_instance` (`ok`, the corrupt-artifact
`noServerDir` error, or a copy failure partway through with the payload
left in state `midway`). -/

structure InstFS where
  serverDirExists : Bool
  payload : String
  userData : String
  marker : Option (String × String)
deriving DecidableEq, Repr

inductive ExtractOutcome
  | ok
  | noServerDir
  | copyFail (midway : String)
deriving DecidableEq, Repr

structure UpdEnv where
  stopWorks : Bool
  ensureOk : Bool
  verQ : Option String
  zipPayload : String
  backupOk : Bool
  extract : ExtractOutcome
deriving DecidableEq, Repr

structure UpdResult where
  ok : Bool
  wasRunning : Bool
  restarted : List String
  fs : InstFS
deriving DecidableEq, Repr

/-- Embeds the `_worker` body of `perform_update`: `running` is the set of
live instance names (`_server_processes` with live `poll()`), `x` the active
instance (`get_active_instance()`).  Key lines: `was_running` is set from
`server_svc.is_running()` — any instance, line 335; the stop targets `x` and
is a no-op when `x` is not running; the backup runs only when the `Server`
directory exists; `_save_version_for_instance` runs after extraction; the
restart `server_svc.start(instance_name=instance_name)` is guarded by
`was_running and instance_name` (line 381). -/
def performUpdateRun (running : List String) (x : String) (patchline : String)
    (fs : InstFS) (env : UpdEnv) : UpdResult :=
  let wasRunning : Bool := !running.isEmpty
  let stopFails : Bool := running.contains x && !env.stopWorks
  if wasRunning && stopFails then ⟨false, wasRunning, [], fs⟩
  else if !env.ensureOk then ⟨false, wasRunning, [], fs⟩
  else
    let newVer : String := env.verQ.getD "unknown"
    if fs.serverDirExists && !env.backupOk then ⟨false, wasRunning, [], fs⟩
    else
      match env.extract with
      | ExtractOutcome.noServerDir => ⟨false, wasRunning, [], fs⟩
      | ExtractOutcome.copyFail m =>
        ⟨false, wasRunning, [], ⟨fs.serverDirExists, m, fs.userData, fs.marker⟩⟩
      | ExtractOutcome.ok =>
        let fs2 : InstFS :=
          ⟨fs.serverDirExists, env.zipPayload, fs.userData, some (newVer, patchline)⟩
        ⟨true, wasRunning, if wasRunning && !(x == "") then [x] else [], fs2⟩

end HSM

namespace HSM

/-- C2 counterexample: instance `"Beta"` is running and the target (active)
instance `"Alpha"` is not.  `perform_update` sets `was_running` from the
global `server_svc.is_running()` (any instance), so the run records
`was_running = true` and restarts `"Alpha"` after the update even though
`"Alpha"` was not running before the update began. -/
theorem C2_global_running_counterexample :
    (performUpdateRun ["Beta"] "Alpha" "release"
        ⟨true, "payload-v1", "saves", some ("1.0", "release")⟩
        ⟨true, true, some "2.0", "payload-v2", true, ExtractOutcome.ok⟩).restarted
      = ["Alpha"]
    ∧ (performUpdateRun ["Beta"] "Alpha" "release"
        ⟨true, "payload-v1", "saves", some ("1.0", "release")⟩
        ⟨true, true, some "2.0", "payload-v2", true, ExtractOutcome.ok⟩).wasRunning
      = true
    ∧ ¬ ("Alpha" ∈ (["Beta"] : List String)) := by decide

/-- C2 amended: the running-ness `perform_update` checks and acts on is
global, not specific to the target: `was_running` records whether any
instance was running when the update began (`server_svc.is_running()`), and
the target is restarted afterward only when that global flag was set (and the
run succeeded and the instance name is non-empty) — even if only some other
instance was running. -/
theorem C2_restart_follows_global_flag (running : List String) (x patchline : String)
    (fs : InstFS) (env : UpdEnv) :
    (performUpdateRun running x patchline fs env).wasRunning = !running.isEmpty
    ∧ ((performUpdateRun running x patchline fs env).restarted ≠ [] →
        (performUpdateRun running x patchline fs env).restarted = [x]
        ∧ running.isEmpty = false
        ∧ (performUpdateRun running x patchline fs env).ok = true) := by
  cases hA : running.isEmpty <;>
    cases hB : running.contains x <;>
    cases hC : env.stopWorks <;>
    cases hD : env.ensureOk <;>
    cases hF : fs.serverDirExists <;>
    cases hG : env.backupOk <;>
    cases hH : x == "" <;>
    rcases hE : env.extract with _ | _ | m <;>
    simp_all [performUpdateRun]

/-- Witness for `C2_restart_follows_global_flag`: with `"Beta"` running and
target `"Alpha"`, the restart list is exactly `["Alpha"]` and the global flag
was set. -/
theorem C2_restart_follows_global_flag_witness :
    (performUpdateRun ["Beta"] "Alpha" "release"
        ⟨true, "payload-v1", "saves", some ("1.0", "release")⟩
        ⟨true, true, some "2.0", "payload-v2", true, ExtractOutcome.ok⟩).restarted
      = ["Alpha"]
    ∧ (["Beta"] : List String).isEmpty = false :=
  ⟨((C2_restart_follows_global_flag ["Beta"] "Alpha" "release"
      ⟨true, "payload-v1", "saves", some ("1.0", "release")⟩
      ⟨true, true, some "2.0", "payload-v2", true, ExtractOutcome.ok⟩).2
      (by decide)).1,
   ((C2_restart_follows_global_flag ["Beta"] "Alpha" "release"
      ⟨true, "payload-v1", "saves", some ("1.0", "release")⟩
      ⟨true, true, some "2.0", "payload-v2", true, ExtractOutcome.ok⟩).2
      (by decide)).2.1⟩

/-- C4: `perform_update` is failure-atomic as claimed: a backup-creation
failure (when an installation exists) or a corrupt artifact with no `Server`
subdirectory aborts the run with every tracked file of the existing
installation unmodified, every failed run leaves the version/patchline marker
unchanged, and the marker is rewritten only in a run where the stop, download,
backup and extraction steps all succeeded. -/
theorem C4_failure_atomic (running : List String) (x patchline : String)
    (fs : InstFS) (env : UpdEnv) :
    (env.backupOk = false → fs.serverDirExists = true →
      (performUpdateRun running x patchline fs env).fs = fs)
    ∧ (env.extract = ExtractOutcome.noServerDir →
        (performUpdateRun running x patchline fs env).fs = fs)
    ∧ ((performUpdateRun running x patchline fs env).ok = false →
        (performUpdateRun running x patchline fs env).fs.marker = fs.marker)
    ∧ ((performUpdateRun running x patchline fs env).fs.marker ≠ fs.marker →
        (performUpdateRun running x patchline fs env).ok = true
        ∧ env.extract = ExtractOutcome.ok ∧ env.ensureOk = true
        ∧ (fs.serverDirExists = true → env.backupOk = true)) := by
  cases hA : running.isEmpty <;>
    cases hB : running.contains x <;>
    cases hC : env.stopWorks <;>
    cases hD : env.ensureOk <;>
    cases hF : fs.serverDirExists <;>
    cases hG : env.backupOk <;>
    cases hH : x == "" <;>
    rcases hE : env.extract with _ | _ | m <;>
    simp_all [performUpdateRun]

/-- Witness for `C4_failure_atomic`: a run whose backup step fails on an
existing installation leaves the tracked files and the marker exactly as they
were, and a run failing on a corrupt artifact does too. -/
theorem C4_failure_atomic_witness :
    (performUpdateRun ["Alpha"] "Alpha" "release"
        ⟨true, "payload-v1", "saves", some ("1.0", "release")⟩
        ⟨true, true, some "2.0", "payload-v2", false, ExtractOutcome.ok⟩).fs
      = ⟨true, "payload-v1", "saves", some ("1.0", "release")⟩
    ∧ (performUpdateRun ["Alpha"] "Alpha" "release"
        ⟨true, "payload-v1", "saves", some ("1.0", "release")⟩
        ⟨true, true, some "2.0", "payload-v2", true, ExtractOutcome.noServerDir⟩).fs
      = ⟨true, "payload-v1", "saves", some ("1.0", "release")⟩
    ∧ (performUpdateRun ["Alpha"] "Alpha" "release"
        ⟨true, "payload-v1", "saves", some ("1.0", "release")⟩
        ⟨true, false, some "2.0", "payload-v2", true, ExtractOutcome.ok⟩).fs.marker
      = some ("1.0", "release") :=
  ⟨(C4_failure_atomic ["Alpha"] "Alpha" "release"
      ⟨true, "payload-v1", "saves", some ("1.0", "release")⟩
      ⟨true, true, some "2.0", "payload-v2", false, ExtractOutcome.ok⟩).1 rfl rfl,
   (C4_failure_atomic ["Alpha"] "Alpha" "release"
      ⟨true, "payload-v1", "saves", some ("1.0", "release")⟩
      ⟨true, true, some "2.0", "payload-v2", true, ExtractOutcome.noServerDir⟩).2.1 rfl,
   (C4_failure_atomic ["Alpha"] "Alpha" "release"
      ⟨true, "payload-v1", "saves", some ("1.0", "release")⟩
      ⟨true, false, some "2.0", "payload-v2", true, ExtractOutcome.ok⟩).2.2.1 (by decide)⟩

end HSM

namespace HSM

/-! ## API request admission (`api/server.py` `start`, `api/updater.py`
`update` / `update_all`, `services/updater.py` `perform_update`)

`updFlag` models the module-level `_update_in_progress` value (the instance
name being updated, `""` for an unnamed target, `"__update_all__"` for bulk
updates, `none` when idle). -/

inductive ReqDecision
  | reject
  | launchJob
deriving DecidableEq, Repr

/-- Python truthiness of the `_update_in_progress` value: `None` and the
empty string are falsy, any other string is truthy.  The empty string is a
reachable flag value: `perform_update` and `perform_first_time_setup` set
`_set_update_in_progress(instance_name or "")`, which is `""` whenever no
active instance is selected. -/
def pyTruthy (flag : Option String) : Bool :=
  match flag with
  | none => false
  | some s => !(s == "")

/-- Embeds the guard chain of `POST /server/start` (`api/server.py` lines
136-161): no instance selected, `if updater_svc.get_update_in_progress():`
truthy (a Python truthiness test, so the reachable flag value `""` does NOT
reject), or that instance already running all reject with an error;
otherwise the start worker is launched. -/
def startRouteDecision (updFlag : Option String) (instSelected : Bool)
    (instRunning : Bool) : ReqDecision :=
  if !instSelected then ReqDecision.reject
  else if pyTruthy updFlag then ReqDecision.reject
  else if instRunning then ReqDecision.reject
  else ReqDecision.launchJob

/-- Embeds `POST /updater/update` (`api/updater.py` lines 111-119): the route
reads the `graceful` flag from the body and unconditionally calls
`_sse_stream_for_operation(updater.perform_update, ...)`, which launches the
update worker; `get_update_in_progress()` is never consulted. -/
def updateRouteDecision (updFlag : Option String) : ReqDecision :=
  ReqDecision.launchJob

/-- Embeds `POST /updater/update-all` (`api/updater.py` lines 157-162):
likewise launches `perform_update_all` without consulting the flag. -/
def updateAllRouteDecision (updFlag : Option String) : ReqDecision :=
  ReqDecision.launchJob

/-- Embeds the start of `perform_update`'s worker
(`_set_update_in_progress(instance_name or "")`, `updater.py` line 333): the
flag is overwritten unconditionally — there is no check-and-reject of an
already-set flag, so launching a second job while one is active just bumps
the active-job count. -/
def performUpdateAdmit (updFlag : Option String) (x : String) (activeJobs : Nat) :
    Option String × Nat :=
  (some x, activeJobs + 1)

end HSM

namespace HSM

/-- C5 counterexample: while the global update flag is set (an update of
`"Alpha"` is in progress), a new single-instance update request and a new
update-all request are both admitted — the routes never consult the flag —
and the admitted worker simply overwrites the flag, giving two concurrently
active update jobs; moreover, when the flag holds the reachable falsy
sentinel `""` (an update of an unnamed target is in progress), even a new
start request is admitted, since the guard is a Python truthiness test.  The
claim that every new start and update request is rejected synchronously
while the flag is set is false. -/
theorem C5_update_not_rejected_counterexample :
    updateRouteDecision (some "Alpha") = ReqDecision.launchJob
    ∧ updateAllRouteDecision (some "Alpha") = ReqDecision.launchJob
    ∧ performUpdateAdmit (some "Alpha") "Beta" 1 = (some "Beta", 2)
    ∧ startRouteDecision (some "") true false = ReqDecision.launchJob := by decide

/-- C5 amended: while the global update flag holds a non-empty value, every
new start request is rejected synchronously (`api/server.py` line 145); when
it holds the reachable empty-string sentinel (update of an unnamed target),
start requests are admitted, the truthiness guard not firing; and update
requests (single-instance and update-all) are never checked against the
flag: they launch immediately, overwrite the flag, and can run concurrently
with the job already active. -/
theorem C5_start_rejected_update_admitted (updFlag : Option String)
    (instRunning : Bool) (x : String) (jobs : Nat) :
    (∀ s : String, updFlag = some s → s ≠ "" →
      startRouteDecision updFlag true instRunning = ReqDecision.reject)
    ∧ startRouteDecision (some "") true false = ReqDecision.launchJob
    ∧ updateRouteDecision updFlag = ReqDecision.launchJob
    ∧ updateAllRouteDecision updFlag = ReqDecision.launchJob
    ∧ (performUpdateAdmit updFlag x jobs).2 = jobs + 1 := by
  refine ⟨?_, by decide, rfl, rfl, rfl⟩
  intro s hs hne
  unfold startRouteDecision pyTruthy
  rw [hs]
  simp [hne]

/-- Witness for `C5_start_rejected_update_admitted` at a set non-empty flag:
the start request is rejected while the update request launches, and at the
empty-string flag the start request is admitted. -/
theorem C5_start_rejected_update_admitted_witness :
    startRouteDecision (some "__update_all__") true false = ReqDecision.reject
    ∧ startRouteDecision (some "") true false = ReqDecision.launchJob
    ∧ updateRouteDecision (some "__update_all__") = ReqDecision.launchJob :=
  ⟨(C5_start_rejected_update_admitted (some "__update_all__") false "Beta" 1).1
      "__update_all__" rfl (by decide),
   (C5_start_rejected_update_admitted (some "__update_all__") false "Beta" 1).2.1,
   (C5_start_rejected_update_admitted (some "__update_all__") false "Beta" 1).2.2.1⟩

end HSM

namespace HSM

/-! ## The start worker thread (`services/server.py` `start`, lines 271-345)

The `_worker` closure loops: apply any staged update, `Popen` the server,
pump output, wait for the exit code; exit code 8 restarts the loop, anything
else ends it, after which `on_done(rc)` is called once.  Crucially,
`_apply_staged_update(inst, on_output)` (line 276) is called *outside* the
`try` block (lines 288-325), whose handlers convert `FileNotFoundError` and
any other `Exception` into `rc = -1`.

`IterEnv` gives each loop iteration's behaviour: whether
`_apply_staged_update` raises (a `shutil` copy error, permissions, disk
full), and the launch result (`okRc rc` = `Popen` + `wait` returned `rc`,
`fileNotFound` = missing Java, `otherExc` = any other exception during
spawn/pump).  `WResult.escaped` records an exception propagating out of the
worker function (killing the thread); `done` records the `on_done`
invocations; `spun` marks runs still in the restart loop after the given
fuel. -/

inductive LaunchRes
  | okRc (rc : Int)
  | fileNotFound
  | otherExc
deriving DecidableEq, Repr

structure IterEnv where
  stagedRaises : Bool
  launch : LaunchRes
deriving DecidableEq, Repr

structure WResult where
  escaped : Bool
  done : List Int
  spun : Bool
deriving DecidableEq, Repr

/-- Embeds the `_worker` loop of `start`; `i` is the iteration index, `fuel`
bounds how many restart-sentinel (code 8) iterations we unroll. -/
def startWorker (env : Nat → IterEnv) : Nat → Nat → WResult
  | 0, _ => ⟨false, [], true⟩
  | fuel + 1, i =>
    if (env i).stagedRaises then ⟨true, [], false⟩
    else
      match (env i).launch with
      | LaunchRes.fileNotFound => ⟨false, [(-1 : Int)], false⟩
      | LaunchRes.otherExc => ⟨false, [(-1 : Int)], false⟩
      | LaunchRes.okRc rc =>
        if rc = 8 then startWorker env fuel (i + 1)
        else ⟨false, [rc], false⟩

end HSM

namespace HSM

/-- C6 counterexample: a staged update whose application raises (here on the
very first iteration, e.g. a failed `shutil.copy2` of the staged jar) is not
caught by the worker's `try` block — `_apply_staged_update` is called before
it — so the exception escapes the worker thread and the completion callback
is never invoked, contradicting the claim that every failure inside the
start worker is converted into a terminal failure event. -/
theorem C6_staged_update_escape_counterexample :
    startWorker (fun _ => ⟨true, LaunchRes.okRc 0⟩) 5 0
      = ⟨true, [], false⟩ := by decide

/-- C6 amended: exceptions raised while spawning the subprocess or pumping
its output are caught and converted into a single completion callback with
code `-1` (and a clean exit code likewise yields exactly one callback), so
in any run in which `_apply_staged_update` never raises, no exception
escapes the worker and — whenever the restart loop terminates within the
given fuel — the completion callback is invoked exactly once; but a raise in
`_apply_staged_update` escapes the thread with no callback at all. -/
theorem C6_escape_only_from_staged_update (env : Nat → IterEnv) (fuel i : Nat)
    (hns : ∀ j, (env j).stagedRaises = false) :
    (startWorker env fuel i).escaped = false
    ∧ ((startWorker env fuel i).spun = false →
        (startWorker env fuel i).done.length = 1) := by
  induction fuel generalizing i with
  | zero => simp [startWorker]
  | succ fuel ih =>
    unfold startWorker
    rw [hns i]
    simp only [Bool.false_eq_true, if_false]
    cases hL : (env i).launch with
    | fileNotFound => simp
    | otherExc => simp
    | okRc rc =>
      by_cases h8 : rc = 8
      · simpa [h8] using ih (i + 1)
      · simp [h8]

/-- Witness for `C6_escape_only_from_staged_update`: a worker whose staged
update applies cleanly and whose server exits 8 once (restart sentinel) and
then 0 escapes nothing and calls the completion callback exactly once. -/
theorem C6_escape_only_from_staged_update_witness :
    (startWorker (fun j => ⟨false, LaunchRes.okRc (if j = 0 then 8 else 0)⟩) 5 0).escaped
      = false
    ∧ (startWorker (fun j => ⟨false, LaunchRes.okRc (if j = 0 then 8 else 0)⟩) 5 0).done.length
      = 1 :=
  ⟨(C6_escape_only_from_staged_update
      (fun j => ⟨false, LaunchRes.okRc (if j = 0 then 8 else 0)⟩) 5 0
      (fun _ => rfl)).1,
   (C6_escape_only_from_staged_update
      (fun j => ⟨false, LaunchRes.okRc (if j = 0 then 8 else 0)⟩) 5 0
      (fun _ => rfl)).2 (by decide)⟩

end HSM

namespace HSM

/-! ## Graceful shutdown, short window (`services/updater.py`
`_graceful_shutdown_with_warning`, lines 469-527, `minutes <= 1` branch)

For `minutes <= 1` the code runs (lines 483-488, then 520-527):

  - `send_command("/say ... 1 minute ...")`
  - `deadline = time.time() + 60`
  - `if server_svc.is_instance_running(instance_name): stop + 30×1s wait`

Both `while time.time() < deadline` polling loops (lines 506-518) are
indented inside the `else:` branch taken only when `minutes > 1`, so in the
short branch the `deadline` value is never consulted: nothing sleeps between
the broadcast and the stop check.  `countdownPolls` counts executed
countdown-poll iterations between the broadcast and the stop sequence —
structurally zero in this branch.  `runningAtStart` and `runningAtStopCheck`
are the two `is_instance_running` reads; `runningDuringStopWait t` is the
read in iteration `t` of the 30-second wait after `stop`. -/

structure GraceEnv where
  runningAtStart : Bool
  runningAtStopCheck : Bool
  runningDuringStopWait : Nat → Bool

structure GraceResult where
  broadcasts : List String
  countdownPolls : Nat
  stopIssued : Bool
  ok : Bool
deriving DecidableEq, Repr

def gracefulStopShort (env : GraceEnv) : GraceResult :=
  if !env.runningAtStart then ⟨[], 0, false, true⟩
  else
    if env.runningAtStopCheck then
      ⟨["1 minute"], 0, true,
        (List.range 30).any (fun t => !env.runningDuringStopWait t)⟩
    else ⟨["1 minute"], 0, false, true⟩

end HSM

namespace HSM

/-- C1: evaluating the `minutes <= 1` branch of
`_graceful_shutdown_with_warning` on a running instance (the claim's
scenario: the process would stop itself 10 seconds into the expected
60-second countdown, and responds promptly once `stop` is sent): the single
"1 minute" broadcast is sent, but zero countdown-poll iterations are
executed — the 60-second deadline is computed and never consulted, both wait
loops being inside the `minutes > 1` branch — and the stop sequence is
initiated immediately after the broadcast rather than after the schedule
elapses. -/
theorem C1_no_countdown_wait :
    gracefulStopShort ⟨true, true, fun _ => false⟩ = ⟨["1 minute"], 0, true, true⟩
    ∧ ∀ f : Nat → Bool,
        (gracefulStopShort ⟨true, true, f⟩).countdownPolls = 0
        ∧ (gracefulStopShort ⟨true, true, f⟩).stopIssued = true := by
  exact ⟨rfl, fun f => ⟨rfl, rfl⟩⟩

end HSM

namespace HSM

/-! ## Process registry admission (`services/server.py` `start`)

`start` checks under `_server_lock` (lines 243-249) whether the name already
has a live entry in `_server_processes` and rejects if so; the worker thread
later spawns the subprocess (line 289) and inserts the entry, again under
the lock (lines 306-307).  The check and the insertion are separate critical
sections.  The model runs two start requests, A and B, for the same instance
name: A's spawned process has pid 1, B's pid 2.  `reg` is the
`_server_processes` entry for the name, `procs` the live OS processes
spawned for it; each atomic step is one lock-protected region (or the
spawn, which runs with no lock held). -/

inductive Pc
  | ready
  | passedCheck
  | spawned
  | registered
  | rejectedReq
deriving DecidableEq, Repr

structure RegState where
  reg : Option Nat
  procs : List Nat
  a : Pc
  b : Pc
deriving DecidableEq, Repr

/-- The guarded check of `start` lines 243-249: reject iff the name has a
registered entry whose process is still alive (`poll() is None`). -/
def checkStep (s : RegState) : Pc :=
  match s.reg with
  | some p => if s.procs.contains p then Pc.rejectedReq else Pc.passedCheck
  | none => Pc.passedCheck

inductive Act
  | checkA
  | spawnA
  | regA
  | checkB
  | spawnB
  | regB
deriving DecidableEq, Repr

def step (s : RegState) : Act → RegState
  | Act.checkA => if s.a = Pc.ready then { s with a := checkStep s } else s
  | Act.spawnA =>
    if s.a = Pc.passedCheck then { s with procs := 1 :: s.procs, a := Pc.spawned } else s
  | Act.regA =>
    if s.a = Pc.spawned then { s with reg := some 1, a := Pc.registered } else s
  | Act.checkB => if s.b = Pc.ready then { s with b := checkStep s } else s
  | Act.spawnB =>
    if s.b = Pc.passedCheck then { s with procs := 2 :: s.procs, b := Pc.spawned } else s
  | Act.regB =>
    if s.b = Pc.spawned then { s with reg := some 2, b := Pc.registered } else s

def runTrace : RegState → List Act → RegState
  | s, [] => s
  | s, act :: rest => runTrace (step s act) rest

def regInit : RegState := ⟨none, [], Pc.ready, Pc.ready⟩

end HSM

namespace HSM

/-- C9 counterexample: two concurrent start requests for the same name both
pass the registry check before either registers.  After A has spawned
(pid 1) and registered, the name has a live ProcessHandle — yet B, already
past its check, spawns a second process (pid 2) instead of being rejected,
and B's registration overwrites A's entry, leaving two live processes for
one name.  The check (lines 243-249) and the insert (lines 306-307) are
separate lock acquisitions, so the claim's "including when two start
requests for the same name are issued concurrently" fails. -/
theorem C9_concurrent_start_race_counterexample :
    (runTrace regInit [Act.checkA, Act.checkB, Act.spawnA, Act.regA]).reg = some 1
    ∧ ((runTrace regInit [Act.checkA, Act.checkB, Act.spawnA, Act.regA]).procs.contains 1
        = true)
    ∧ (runTrace regInit [Act.checkA, Act.checkB, Act.spawnA, Act.regA]).b = Pc.passedCheck
    ∧ (runTrace regInit
        [Act.checkA, Act.checkB, Act.spawnA, Act.regA, Act.spawnB, Act.regB]).procs
      = [2, 1]
    ∧ (runTrace regInit
        [Act.checkA, Act.checkB, Act.spawnA, Act.regA, Act.spawnB, Act.regB]).b
      ≠ Pc.rejectedReq := by decide

/-- C9 amended: a start request whose registry check observes a live
ProcessHandle for the name is rejected and never reaches the spawn (so
at most one handle arises from sequential requests); but because the check
and the registration are separate critical sections, two concurrent requests
that both check before either registers can both spawn processes for the
same name, the registry keeping only the later entry. -/
theorem C9_check_rejects_live_handle (s : RegState) (p : Nat)
    (hreg : s.reg = some p) (hlive : s.procs.contains p = true)
    (hb : s.b = Pc.ready) :
    (step s Act.checkB).b = Pc.rejectedReq
    ∧ (runTrace s [Act.checkB, Act.spawnB, Act.regB]).procs = s.procs
    ∧ (runTrace s [Act.checkB, Act.spawnB, Act.regB]).reg = s.reg := by
  have hcheck : checkStep s = Pc.rejectedReq := by
    unfold checkStep
    rw [hreg]
    simp [List.elem_iff.mp hlive]
  have h1 : step s Act.checkB = { s with b := Pc.rejectedReq } := by
    unfold step
    rw [hb, hcheck]
    simp
  have h2 : step { s with b := Pc.rejectedReq } Act.spawnB
      = { s with b := Pc.rejectedReq } := by
    unfold step
    simp
  have h3 : step { s with b := Pc.rejectedReq } Act.regB
      = { s with b := Pc.rejectedReq } := by
    unfold step
    simp
  refine ⟨by rw [h1], ?_, ?_⟩ <;> simp [runTrace, h1, h2, h3]

/-- Witness for `C9_check_rejects_live_handle`: with pid 1 registered and
alive, a fresh start request is rejected and spawns nothing. -/
theorem C9_check_rejects_live_handle_witness :
    (step ⟨some 1, [1], Pc.registered, Pc.ready⟩ Act.checkB).b = Pc.rejectedReq
    ∧ (runTrace ⟨some 1, [1], Pc.registered, Pc.ready⟩
        [Act.checkB, Act.spawnB, Act.regB]).procs = [1] :=
  ⟨(C9_check_rejects_live_handle ⟨some 1, [1], Pc.registered, Pc.ready⟩ 1
      rfl rfl rfl).1,
   (C9_check_rejects_live_handle ⟨some 1, [1], Pc.registered, Pc.ready⟩ 1
      rfl rfl rfl).2.1⟩

end HSM

